import Mathlib

/-!
Shallow embedding of the pyboxen repository (savioxavier/pyboxen).

Two source variants are embedded:
  * `Pyboxen.*` — src/pyboxen/main.py (the current variant)
  * `Boxen.*`   — src/boxen/main.py (the older variant)

Python dynamic values that reach validation are modelled by `PyVal`
(`None`, `str`, `int`, `bool`); the size-spec argument of `parse_size`
is modelled by `SizeSpec` (an int, a tuple of ints, or any other value,
which `parse_size` never inspects beyond its type). Python exceptions
become `Except PyErr`; a successful call returns `Except.ok`.
-/

/-- The kinds of Python exceptions the embedded code can raise:
`ValueError`, `TypeError`, `KeyError` (dict lookup miss), and
`AttributeError` (calling `.lower()` on a non-string). -/
inductive PyErr where
  | valueError (msg : String)
  | typeError (msg : String)
  | keyError (key : String)
  | attributeError (attr : String)
  deriving DecidableEq, Repr

/-- The dynamic argument of `parse_size`: a Python `int`, a tuple of
ints, or any value of another type (carried as an opaque tag; the code
only ever branches on the type, never on the content, of such values). -/
inductive SizeSpec where
  | int (n : Int)
  | tuple (xs : List Int)
  | other (tag : String)
  deriving DecidableEq, Repr

/-- A Python value that can be passed to a keyword argument of `boxen`:
`None`, a string, an int, or a bool. -/
inductive PyVal where
  | none
  | str (s : String)
  | int (n : Int)
  | bool (b : Bool)
  deriving DecidableEq, Repr

/-- Python truthiness for `PyVal`: `None`, `""`, `0` and `False` are
falsy, everything else is truthy. -/
def PyVal.truthy : PyVal → Bool
  | PyVal.none => false
  | PyVal.str s => !(s == "")
  | PyVal.int n => !(n == 0)
  | PyVal.bool b => b

/-- `isinstance(v, str)` for `PyVal`. -/
def PyVal.isStr : PyVal → Bool
  | PyVal.str _ => true
  | _ => false

/-- `isinstance(v, bool)` for `PyVal`. -/
def PyVal.isBool : PyVal → Bool
  | PyVal.bool _ => true
  | _ => false

/-- The underlying string of a `PyVal`; meaningful only under an
`isStr` guard (mirrors short-circuited Python string method calls). -/
def PyVal.asStr : PyVal → String
  | PyVal.str s => s
  | _ => ""

/-- `POSITION_TYPES = ["left", "center", "right"]` (same in both
variants). -/
def POSITION_TYPES : List String := ["left", "center", "right"]

/-- Python membership `v not in POSITION_TYPES` for an arbitrary value:
a non-string never equals a string, so it is never a member. -/
def pyNotInPositions (v : PyVal) : Bool :=
  match v with
  | PyVal.str s => !(POSITION_TYPES.contains s)
  | _ => true

/-- Python `str.lower()` (ASCII range, which covers every string the
code compares against): lower-case each character. -/
def pyLower (s : String) : String :=
  String.mk (s.data.map Char.toLower)

/-- Python repr of a list of strings, as produced by an f-string such
as `f"{POSITION_TYPES}"` or `f"{list(ALL_BOXES.keys())}"`. -/
def pyListRepr (xs : List String) : String :=
  "[" ++ String.intercalate ", " (xs.map (fun s => "\x27" ++ s ++ "\x27")) ++ "]"

/-- The border-glyph sets of `rich.box` referenced by either variant;
opaque tokens here, since glyph drawing is delegated to Rich. -/
inductive Box where
  | ASCII
  | ASCII2
  | ASCII_DOUBLE_HEAD
  | SQUARE
  | SQUARE_DOUBLE_HEAD
  | MINIMAL
  | MINIMAL_HEAVY_HEAD
  | MINIMAL_DOUBLE_HEAD
  | SIMPLE
  | SIMPLE_HEAD
  | SIMPLE_HEAVY
  | HORIZONTALS
  | ROUNDED
  | HEAVY
  | HEAVY_EDGE
  | HEAVY_HEAD
  | DOUBLE
  | DOUBLE_EDGE
  | MARKDOWN
  deriving DecidableEq, Repr

/-- Python dict lookup `d[k]`, as an `Option` (a miss is a `KeyError`
at the call site). -/
def dictLookup (d : List (String × Box)) (k : String) : Option Box :=
  (d.find? (fun p => p.1 == k)).map Prod.snd

namespace Pyboxen

/-- `ALL_BOXES` of src/pyboxen/main.py: the ten curated style keys. -/
def ALL_BOXES : List (String × Box) :=
  [("ascii", Box.ASCII),
   ("ascii2", Box.ASCII2),
   ("ascii_double_head", Box.ASCII_DOUBLE_HEAD),
   ("square", Box.SQUARE),
   ("square_double_head", Box.SQUARE_DOUBLE_HEAD),
   ("minimal", Box.MINIMAL),
   ("horizontals", Box.HORIZONTALS),
   ("rounded", Box.ROUNDED),
   ("heavy", Box.HEAVY),
   ("double", Box.DOUBLE)]

/-- `ALL_BOXES.keys()`. -/
def boxKeys : List String := ALL_BOXES.map Prod.fst

/-- `parse_size` of src/pyboxen/main.py. A tuple of length 2 gives
`(a, b, a, b)`, a tuple of length 4 is returned as is, any other tuple
length raises `ValueError`; a plain int `n` gives `(n, n*3, n, n*3)`;
anything else raises `TypeError`. `roleLabel` is the Python `instance`
parameter, used only in error messages. -/
def parse_size (size : SizeSpec) (roleLabel : String) :
    Except PyErr (Int × Int × Int × Int) :=
  match size with
  | SizeSpec.tuple xs =>
      match xs with
      | [a, b] => Except.ok (a, b, a, b)
      | [a, b, c, d] => Except.ok (a, b, c, d)
      | _ =>
          Except.error (PyErr.valueError
            (roleLabel ++ " tuples must have either a total of 2 or 4 elements in it"))
  | SizeSpec.int n => Except.ok (n, n * 3, n, n * 3)
  | SizeSpec.other _ =>
      Except.error (PyErr.typeError (roleLabel ++ " must be either int or tuple of ints"))

/-- `make_margin` of src/pyboxen/main.py. -/
def make_margin (margin : SizeSpec) : Except PyErr (Int × Int × Int × Int) :=
  parse_size margin "margin"

/-- `make_padding` of src/pyboxen/main.py. -/
def make_padding (padding : SizeSpec) : Except PyErr (Int × Int × Int × Int) :=
  parse_size padding "padding"

end Pyboxen

namespace Boxen

/-- `ALL_BOXES` of src/boxen/main.py: the larger, redundant key set of
the older variant. -/
def ALL_BOXES : List (String × Box) :=
  [("ascii", Box.ASCII),
   ("ascii2", Box.ASCII2),
   ("ascii_double_head", Box.ASCII_DOUBLE_HEAD),
   ("square", Box.SQUARE),
   ("square_double_head", Box.SQUARE_DOUBLE_HEAD),
   ("minimal", Box.MINIMAL),
   ("minimal_heavy_head", Box.MINIMAL_HEAVY_HEAD),
   ("minimal_double_head", Box.MINIMAL_DOUBLE_HEAD),
   ("simple", Box.SIMPLE),
   ("simple_head", Box.SIMPLE_HEAD),
   ("simple_heavy", Box.SIMPLE_HEAVY),
   ("horizontals", Box.HORIZONTALS),
   ("rounded", Box.ROUNDED),
   ("heavy", Box.HEAVY),
   ("heavy_edge", Box.HEAVY_EDGE),
   ("heavy_head", Box.HEAVY_HEAD),
   ("double", Box.DOUBLE),
   ("double_edge", Box.DOUBLE_EDGE),
   ("markdown", Box.MARKDOWN)]

/-- `ALL_BOXES.keys()` of the older variant. -/
def boxKeys : List String := ALL_BOXES.map Prod.fst

/-- `parse_size` of src/boxen/main.py; textually identical to the
current variant's. -/
def parse_size (size : SizeSpec) (roleLabel : String) :
    Except PyErr (Int × Int × Int × Int) :=
  match size with
  | SizeSpec.tuple xs =>
      match xs with
      | [a, b] => Except.ok (a, b, a, b)
      | [a, b, c, d] => Except.ok (a, b, c, d)
      | _ =>
          Except.error (PyErr.valueError
            (roleLabel ++ " tuples must have either a total of 2 or 4 elements in it"))
  | SizeSpec.int n => Except.ok (n, n * 3, n, n * 3)
  | SizeSpec.other _ =>
      Except.error (PyErr.typeError (roleLabel ++ " must be either int or tuple of ints"))

/-- `make_margin` of src/boxen/main.py. -/
def make_margin (margin : SizeSpec) : Except PyErr (Int × Int × Int × Int) :=
  parse_size margin "margin"

/-- `make_padding` of src/boxen/main.py. -/
def make_padding (padding : SizeSpec) : Except PyErr (Int × Int × Int × Int) :=
  parse_size padding "padding"

end Boxen

/-- The spec's validity predicate on a Size Spec: scalar specs and all
tuple components are non-negative. -/
def SizeSpec.nonneg : SizeSpec → Prop
  | SizeSpec.int n => 0 ≤ n
  | SizeSpec.tuple xs => ∀ x ∈ xs, 0 ≤ x
  | SizeSpec.other _ => True

/-- `Except.ok`-ness, as a Bool (Python: the call returns normally). -/
def exceptOk {ε α : Type} (e : Except ε α) : Bool :=
  match e with
  | Except.ok _ => true
  | Except.error _ => false

/-- The keyword arguments of `boxen` that `validate_args` inspects
(padding and margin are validated separately by `parse_size`). -/
structure BoxenArgs where
  color : PyVal
  style : PyVal
  text_alignment : PyVal
  box_alignment : PyVal
  title : PyVal
  title_alignment : PyVal
  subtitle : PyVal
  subtitle_alignment : PyVal
  fullwidth : PyVal
  deriving DecidableEq, Repr

/-- The default keyword arguments of `boxen` (identical in both
variants). -/
def defaultArgs : BoxenArgs :=
  { color := PyVal.str "white"
    style := PyVal.str "rounded"
    text_alignment := PyVal.str "center"
    box_alignment := PyVal.str "left"
    title := PyVal.none
    title_alignment := PyVal.str "left"
    subtitle := PyVal.none
    subtitle_alignment := PyVal.str "left"
    fullwidth := PyVal.bool false }

namespace Pyboxen

/-- `validate_args` of src/pyboxen/main.py (the inner function of
`boxen`). Each check fires only when the field is truthy; the style and
alignment checks combine the type test and the membership test with
`or`, so a truthy value of the wrong type raises the same `ValueError`
(Python short-circuits before calling `.lower()` on a non-string). -/
def validate_args (a : BoxenArgs) : Except PyErr Unit :=
  if a.color.truthy && !a.color.isStr then
    Except.error (PyErr.typeError "color must be a string")
  else if a.title.truthy && !a.title.isStr then
    Except.error (PyErr.typeError "title must be a string")
  else if a.subtitle.truthy && !a.subtitle.isStr then
    Except.error (PyErr.typeError "subtitle must be a string")
  else if a.style.truthy && (!a.style.isStr || !(boxKeys.contains (pyLower a.style.asStr))) then
    Except.error (PyErr.valueError ("style must be one of " ++ pyListRepr boxKeys))
  else if a.text_alignment.truthy &&
      (!a.text_alignment.isStr || !(POSITION_TYPES.contains a.text_alignment.asStr)) then
    Except.error (PyErr.valueError ("text alignment must be one of " ++ pyListRepr POSITION_TYPES))
  else if a.box_alignment.truthy &&
      (!a.box_alignment.isStr || !(POSITION_TYPES.contains a.box_alignment.asStr)) then
    Except.error (PyErr.valueError ("box alignment must be one of " ++ pyListRepr POSITION_TYPES))
  else if a.title_alignment.truthy &&
      (!a.title_alignment.isStr || !(POSITION_TYPES.contains a.title_alignment.asStr)) then
    Except.error (PyErr.valueError ("title alignment must be one of " ++ pyListRepr POSITION_TYPES))
  else if a.subtitle_alignment.truthy &&
      (!a.subtitle_alignment.isStr || !(POSITION_TYPES.contains a.subtitle_alignment.asStr)) then
    Except.error
      (PyErr.valueError ("subtitle alignment must be one of " ++ pyListRepr POSITION_TYPES))
  else if a.fullwidth.truthy && !a.fullwidth.isBool then
    Except.error (PyErr.typeError "fullwidth must be either True or False")
  else Except.ok ()

end Pyboxen

namespace Boxen

/-- `validate_args` of src/boxen/main.py. The style, text-alignment and
box-alignment checks combine the type test and the membership test with
`and`, so they can fire only on a truthy non-string; for the style
check Python then raises `AttributeError` while evaluating
`style.lower()` on that non-string, before the `ValueError` could be
raised. The title- and subtitle-alignment checks instead use
`(truthy and not-a-string) or (value not in POSITION_TYPES)`. -/
def validate_args (a : BoxenArgs) : Except PyErr Unit :=
  if a.color.truthy && !a.color.isStr then
    Except.error (PyErr.typeError "color must be a string")
  else if a.title.truthy && !a.title.isStr then
    Except.error (PyErr.typeError "title must be a string")
  else if a.subtitle.truthy && !a.subtitle.isStr then
    Except.error (PyErr.typeError "subtitle must be a string")
  else if a.style.truthy && !a.style.isStr then
    Except.error (PyErr.attributeError "lower")
  else if a.text_alignment.truthy && !a.text_alignment.isStr &&
      pyNotInPositions a.text_alignment then
    Except.error (PyErr.valueError ("text alignment must be one of " ++ pyListRepr POSITION_TYPES))
  else if a.box_alignment.truthy && !a.box_alignment.isStr &&
      pyNotInPositions a.box_alignment then
    Except.error (PyErr.valueError ("box alignment must be one of " ++ pyListRepr POSITION_TYPES))
  else if (a.title_alignment.truthy && !a.title_alignment.isStr) ||
      pyNotInPositions a.title_alignment then
    Except.error (PyErr.valueError ("title alignment must be one of " ++ pyListRepr POSITION_TYPES))
  else if (a.subtitle_alignment.truthy && !a.subtitle_alignment.isStr) ||
      pyNotInPositions a.subtitle_alignment then
    Except.error
      (PyErr.valueError ("subtitle alignment must be one of " ++ pyListRepr POSITION_TYPES))
  else if a.fullwidth.truthy && !a.fullwidth.isBool then
    Except.error (PyErr.typeError "fullwidth must be either True or False")
  else Except.ok ()

end Boxen

example : Pyboxen.validate_args defaultArgs = Except.ok () := rfl

example : Boxen.validate_args defaultArgs = Except.ok () := rfl

example : Pyboxen.validate_args { defaultArgs with style := PyVal.str "" } = Except.ok () := rfl

/-- All keyword arguments of `boxen`, together with the variadic text
payload (opaque renderable strings) and the raw padding/margin specs. -/
structure FullArgs extends BoxenArgs where
  text : List String
  padding : SizeSpec
  margin : SizeSpec
  deriving DecidableEq, Repr

/-- `boxen` called with only a text payload: every keyword argument at
its default. -/
def defaultFullArgs : FullArgs :=
  { defaultArgs with
    text := ["hello"]
    padding := SizeSpec.int 0
    margin := SizeSpec.int 0 }

/-- The shared Rich console handle: the only process-wide state the
code touches. Rendering happens inside `console.capture()`, which
restores the console afterwards, so no field of it is mutated by a
call. -/
structure Console where
  width : Nat
  deriving DecidableEq, Repr

/-- The renderable tree handed to the rendering collaborator:
`Align(Margin(Panel(Align(Group(*text)))))` with the resolved
attributes at each level. -/
inductive Renderable where
  | group (items : List String)
  | align (content : Renderable) (alignment : PyVal)
  | margin (content : Renderable) (pad : Int × Int × Int × Int)
  | panel (content : Renderable) (box : Box) (borderStyle : PyVal) (expand : PyVal)
      (padding : Int × Int × Int × Int) (title : PyVal) (titleAlign : PyVal)
      (subtitle : PyVal) (subtitleAlign : PyVal) (highlight : Bool)
  deriving DecidableEq, Repr

namespace Pyboxen

/-- The dict access `ALL_BOXES[style.lower()]` of `build_box`: a miss
raises `KeyError`; calling `.lower()` on a non-string raises
`AttributeError`. -/
def style_box (v : PyVal) : Except PyErr Box :=
  match v with
  | PyVal.str s =>
      match dictLookup ALL_BOXES (pyLower s) with
      | some b => Except.ok b
      | none => Except.error (PyErr.keyError (pyLower s))
  | _ => Except.error (PyErr.attributeError "lower")

/-- `build_box` of src/pyboxen/main.py: constructs
`Align(Margin(Panel(...)))` from the arguments; the style lookup, the
padding resolution and the margin resolution can each raise, in that
order (the order the arguments are evaluated in). -/
def build_box (a : FullArgs) : Except PyErr Renderable :=
  match style_box a.style with
  | Except.error e => Except.error e
  | Except.ok bx =>
      match make_padding a.padding with
      | Except.error e => Except.error e
      | Except.ok pad =>
          match make_margin a.margin with
          | Except.error e => Except.error e
          | Except.ok mar =>
              Except.ok
                (Renderable.align
                  (Renderable.margin
                    (Renderable.panel
                      (Renderable.align (Renderable.group a.text) a.text_alignment)
                      bx a.color a.fullwidth pad a.title a.title_alignment
                      a.subtitle a.subtitle_alignment false)
                    mar)
                  a.box_alignment)

/-- `boxen` of src/pyboxen/main.py: validate the arguments, build the
box, print it into a capture buffer on the shared console and return
the captured string. The rendering collaborator (Rich) is the function
argument `render`; `console.capture()` restores the console, so the
returned console state is the input one. -/
def boxen (a : FullArgs) (render : Console → Renderable → String) (c : Console) :
    Except PyErr (String × Console) :=
  match validate_args a.toBoxenArgs with
  | Except.error e => Except.error e
  | Except.ok _ =>
      match build_box a with
      | Except.error e => Except.error e
      | Except.ok bx => Except.ok (render c bx, c)

end Pyboxen

namespace Boxen

/-- The dict access `ALL_BOXES[style.lower()]` of `make_panel` in the
older variant. -/
def style_box (v : PyVal) : Except PyErr Box :=
  match v with
  | PyVal.str s =>
      match dictLookup ALL_BOXES (pyLower s) with
      | some b => Except.ok b
      | none => Except.error (PyErr.keyError (pyLower s))
  | _ => Except.error (PyErr.attributeError "lower")

/-- `make_panel` of src/boxen/main.py; same construction as the current
variant's `build_box`, against the older variant's `ALL_BOXES`. -/
def make_panel (a : FullArgs) : Except PyErr Renderable :=
  match style_box a.style with
  | Except.error e => Except.error e
  | Except.ok bx =>
      match make_padding a.padding with
      | Except.error e => Except.error e
      | Except.ok pad =>
          match make_margin a.margin with
          | Except.error e => Except.error e
          | Except.ok mar =>
              Except.ok
                (Renderable.align
                  (Renderable.margin
                    (Renderable.panel
                      (Renderable.align (Renderable.group a.text) a.text_alignment)
                      bx a.color a.fullwidth pad a.title a.title_alignment
                      a.subtitle a.subtitle_alignment false)
                    mar)
                  a.box_alignment)

/-- `boxen` of src/boxen/main.py. -/
def boxen (a : FullArgs) (render : Console → Renderable → String) (c : Console) :
    Except PyErr (String × Console) :=
  match validate_args a.toBoxenArgs with
  | Except.error e => Except.error e
  | Except.ok _ =>
      match make_panel a with
      | Except.error e => Except.error e
      | Except.ok bx => Except.ok (render c bx, c)

end Boxen

/-- C1: `parse_size` matches the reference normalization on every valid
input — an int `n ≥ 0` gives `(n, n*3, n, n*3)`, a 2-tuple `(a, b)`
gives `(a, b, a, b)`, a 4-tuple is the identity — and on each of these
shapes the result does not depend on the role label. -/
theorem c1_parse_size_normalization (n a b c d : Int) (role role2 : String) :
    (0 ≤ n → Pyboxen.parse_size (SizeSpec.int n) role = Except.ok (n, n * 3, n, n * 3)) ∧
    Pyboxen.parse_size (SizeSpec.tuple [a, b]) role = Except.ok (a, b, a, b) ∧
    Pyboxen.parse_size (SizeSpec.tuple [a, b, c, d]) role = Except.ok (a, b, c, d) ∧
    Pyboxen.parse_size (SizeSpec.int n) role = Pyboxen.parse_size (SizeSpec.int n) role2 ∧
    Pyboxen.parse_size (SizeSpec.tuple [a, b]) role =
      Pyboxen.parse_size (SizeSpec.tuple [a, b]) role2 ∧
    Pyboxen.parse_size (SizeSpec.tuple [a, b, c, d]) role =
      Pyboxen.parse_size (SizeSpec.tuple [a, b, c, d]) role2 :=
  ⟨fun _ => rfl, rfl, rfl, rfl, rfl, rfl⟩

/-- C1 witness at `n = 1`, `(a,b,c,d) = (1,2,3,4)`, roles
`"padding"`/`"margin"`. -/
theorem c1_parse_size_normalization_witness :
    Pyboxen.parse_size (SizeSpec.int 1) "padding" = Except.ok (1, 3, 1, 3) ∧
    Pyboxen.parse_size (SizeSpec.tuple [1, 2]) "padding" = Except.ok (1, 2, 1, 2) ∧
    Pyboxen.parse_size (SizeSpec.tuple [1, 2, 3, 4]) "padding" = Except.ok (1, 2, 3, 4) := by
  have h := c1_parse_size_normalization 1 1 2 3 4 "padding" "margin"
  exact ⟨h.1 (by decide), h.2.1, h.2.2.1⟩

/-- C2: `parse_size` fails exactly on invalid input, with the specified
error kind: a tuple of length other than 2 and 4 raises `ValueError`
with the 2-or-4-elements message, a value that is neither int nor tuple
raises `TypeError`, and every int and every 2- or 4-tuple returns
normally. -/
theorem c2_parse_size_errors (xs : List Int) (n : Int) (tag role : String) :
    (xs.length ≠ 2 → xs.length ≠ 4 →
      Pyboxen.parse_size (SizeSpec.tuple xs) role =
        Except.error (PyErr.valueError
          (role ++ " tuples must have either a total of 2 or 4 elements in it"))) ∧
    Pyboxen.parse_size (SizeSpec.other tag) role =
      Except.error (PyErr.typeError (role ++ " must be either int or tuple of ints")) ∧
    exceptOk (Pyboxen.parse_size (SizeSpec.int n) role) = true ∧
    (xs.length = 2 ∨ xs.length = 4 →
      exceptOk (Pyboxen.parse_size (SizeSpec.tuple xs) role) = true) := by
  refine ⟨?_, rfl, rfl, ?_⟩
  · intro h2 h4
    rcases xs with _ | ⟨a, _ | ⟨b, _ | ⟨c, _ | ⟨d, _ | ⟨e, rest⟩⟩⟩⟩⟩ <;>
      first
        | rfl
        | exact absurd rfl h2
        | exact absurd rfl h4
  · intro h
    rcases xs with _ | ⟨a, _ | ⟨b, _ | ⟨c, _ | ⟨d, _ | ⟨e, rest⟩⟩⟩⟩⟩ <;>
      first
        | rfl
        | simp at h

/-- C2 witness at a 3-tuple, a string-valued spec, and the int and
2-tuple success cases, role `"margin"`. -/
theorem c2_parse_size_errors_witness :
    Pyboxen.parse_size (SizeSpec.tuple [1, 2, 3]) "margin" =
      Except.error (PyErr.valueError
        ("margin" ++ " tuples must have either a total of 2 or 4 elements in it")) ∧
    Pyboxen.parse_size (SizeSpec.other "str") "margin" =
      Except.error (PyErr.typeError ("margin" ++ " must be either int or tuple of ints")) ∧
    exceptOk (Pyboxen.parse_size (SizeSpec.int 5) "margin") = true ∧
    exceptOk (Pyboxen.parse_size (SizeSpec.tuple [7, 8]) "margin") = true := by
  have h := c2_parse_size_errors [1, 2, 3] 5 "str" "margin"
  have h2 := c2_parse_size_errors [7, 8] 5 "str" "margin"
  exact ⟨h.1 (by decide) (by decide), h.2.1, h.2.2.1, h2.2.2.2 (Or.inl (by decide))⟩

/-- C3 counterexample: `parse_size` returns normally on the negative
int `-1`, yet the components of the result are negative, so not every
successfully returned tuple has non-negative components. -/
theorem c3_nonneg_counterexample :
    Pyboxen.parse_size (SizeSpec.int (-1)) "padding" = Except.ok (-1, -3, -1, -3) ∧
    ((-1 : Int) < 0 ∧ (-3 : Int) < 0) :=
  ⟨rfl, by decide⟩

/-- C3 amended: on every non-negative input (a scalar `n ≥ 0`, or a
tuple all of whose components are `≥ 0`), every component of a
successfully returned 4-tuple is non-negative. -/
theorem c3_nonneg_outputs (size : SizeSpec) (role : String) (t r b l : Int)
    (hnn : size.nonneg)
    (h : Pyboxen.parse_size size role = Except.ok (t, r, b, l)) :
    0 ≤ t ∧ 0 ≤ r ∧ 0 ≤ b ∧ 0 ≤ l := by
  cases size with
  | int n =>
      have h0 : (0 : Int) ≤ n := hnn
      simp only [Pyboxen.parse_size, Except.ok.injEq, Prod.mk.injEq] at h
      obtain ⟨ht, hr, hb, hl⟩ := h
      subst ht hr hb hl
      exact ⟨h0, by linarith, h0, by linarith⟩
  | other tag => simp [Pyboxen.parse_size] at h
  | tuple xs =>
      have hx : ∀ x ∈ xs, (0 : Int) ≤ x := hnn
      rcases xs with _ | ⟨a, _ | ⟨b2, _ | ⟨c, _ | ⟨d, _ | ⟨e, rest⟩⟩⟩⟩⟩
      · exact absurd h (by simp [Pyboxen.parse_size])
      · exact absurd h (by simp [Pyboxen.parse_size])
      · simp only [Pyboxen.parse_size, Except.ok.injEq, Prod.mk.injEq] at h
        obtain ⟨ht, hr, hb, hl⟩ := h
        subst ht hr hb hl
        exact ⟨hx _ (by simp), hx _ (by simp), hx _ (by simp), hx _ (by simp)⟩
      · exact absurd h (by simp [Pyboxen.parse_size])
      · simp only [Pyboxen.parse_size, Except.ok.injEq, Prod.mk.injEq] at h
        obtain ⟨ht, hr, hb, hl⟩ := h
        subst ht hr hb hl
        exact ⟨hx _ (by simp), hx _ (by simp), hx _ (by simp), hx _ (by simp)⟩
      · exact absurd h (by simp [Pyboxen.parse_size])

/-- C3 witness at the non-negative 4-tuple `(0, 1, 2, 3)`. -/
theorem c3_nonneg_outputs_witness :
    (0 : Int) ≤ 0 ∧ (0 : Int) ≤ 1 ∧ (0 : Int) ≤ 2 ∧ (0 : Int) ≤ 3 :=
  c3_nonneg_outputs (SizeSpec.tuple [0, 1, 2, 3]) "padding" 0 1 2 3
    (by intro x hx; fin_cases hx <;> decide) rfl

/-- C9: the two variants implement the same geometry resolver — on
every input pair the `parse_size` of src/boxen/main.py and the
`parse_size` of src/pyboxen/main.py return identical results (the same
4-tuple, or the same error kind and message). -/
theorem c9_parse_size_variants_agree (size : SizeSpec) (role : String) :
    Boxen.parse_size size role = Pyboxen.parse_size size role := by
  cases size with
  | int n => rfl
  | other tag => rfl
  | tuple xs =>
      rcases xs with _ | ⟨a, _ | ⟨b, _ | ⟨c, _ | ⟨d, _ | ⟨e, rest⟩⟩⟩⟩⟩ <;> rfl

theorem left_mem_positions : "left" ∈ POSITION_TYPES := by decide

theorem center_mem_positions : "center" ∈ POSITION_TYPES := by decide

theorem rounded_mem_boxKeys : pyLower "rounded" ∈ Pyboxen.boxKeys := by decide

/-- Evaluation of the current variant's `validate_args` when only
`style` differs from the defaults: the outcome is decided by the style
check alone. -/
theorem pyboxen_validate_style_eval (v : PyVal) :
    Pyboxen.validate_args { defaultArgs with style := v } =
      (if v.truthy && (!v.isStr || !(Pyboxen.boxKeys.contains (pyLower v.asStr))) then
        Except.error (PyErr.valueError ("style must be one of " ++ pyListRepr Pyboxen.boxKeys))
      else Except.ok ()) := by
  cases v with
  | none => rfl
  | bool b => cases b <;> rfl
  | int n =>
      by_cases h : n = 0 <;>
        simp [Pyboxen.validate_args, defaultArgs, PyVal.truthy, PyVal.isStr, PyVal.asStr, h,
          left_mem_positions, center_mem_positions]
  | str s =>
      by_cases h1 : s = "" <;>
        by_cases h2 : pyLower s ∈ Pyboxen.boxKeys <;>
          simp [Pyboxen.validate_args, defaultArgs, PyVal.truthy, PyVal.isStr, PyVal.asStr,
            h1, h2, left_mem_positions, center_mem_positions]

/-- Evaluation of the current variant's `validate_args` when only
`text_alignment` differs from the defaults. -/
theorem pyboxen_validate_text_alignment_eval (v : PyVal) :
    Pyboxen.validate_args { defaultArgs with text_alignment := v } =
      (if v.truthy && (!v.isStr || !(POSITION_TYPES.contains v.asStr)) then
        Except.error
          (PyErr.valueError ("text alignment must be one of " ++ pyListRepr POSITION_TYPES))
      else Except.ok ()) := by
  cases v with
  | none => rfl
  | bool b => cases b <;> rfl
  | int n =>
      by_cases h : n = 0 <;>
        simp [Pyboxen.validate_args, defaultArgs, PyVal.truthy, PyVal.isStr, PyVal.asStr, h,
          left_mem_positions, center_mem_positions, rounded_mem_boxKeys]
  | str s =>
      by_cases h1 : s = "" <;>
        by_cases h2 : s ∈ POSITION_TYPES <;>
          simp [Pyboxen.validate_args, defaultArgs, PyVal.truthy, PyVal.isStr, PyVal.asStr,
            h1, h2, left_mem_positions, center_mem_positions, rounded_mem_boxKeys]

/-- Evaluation of the current variant's `validate_args` when only
`box_alignment` differs from the defaults. -/
theorem pyboxen_validate_box_alignment_eval (v : PyVal) :
    Pyboxen.validate_args { defaultArgs with box_alignment := v } =
      (if v.truthy && (!v.isStr || !(POSITION_TYPES.contains v.asStr)) then
        Except.error
          (PyErr.valueError ("box alignment must be one of " ++ pyListRepr POSITION_TYPES))
      else Except.ok ()) := by
  cases v with
  | none => rfl
  | bool b => cases b <;> rfl
  | int n =>
      by_cases h : n = 0 <;>
        simp [Pyboxen.validate_args, defaultArgs, PyVal.truthy, PyVal.isStr, PyVal.asStr, h,
          left_mem_positions, center_mem_positions, rounded_mem_boxKeys]
  | str s =>
      by_cases h1 : s = "" <;>
        by_cases h2 : s ∈ POSITION_TYPES <;>
          simp [Pyboxen.validate_args, defaultArgs, PyVal.truthy, PyVal.isStr, PyVal.asStr,
            h1, h2, left_mem_positions, center_mem_positions, rounded_mem_boxKeys]

/-- Evaluation of the current variant's `validate_args` when only
`title_alignment` differs from the defaults. -/
theorem pyboxen_validate_title_alignment_eval (v : PyVal) :
    Pyboxen.validate_args { defaultArgs with title_alignment := v } =
      (if v.truthy && (!v.isStr || !(POSITION_TYPES.contains v.asStr)) then
        Except.error
          (PyErr.valueError ("title alignment must be one of " ++ pyListRepr POSITION_TYPES))
      else Except.ok ()) := by
  cases v with
  | none => rfl
  | bool b => cases b <;> rfl
  | int n =>
      by_cases h : n = 0 <;>
        simp [Pyboxen.validate_args, defaultArgs, PyVal.truthy, PyVal.isStr, PyVal.asStr, h,
          left_mem_positions, center_mem_positions, rounded_mem_boxKeys]
  | str s =>
      by_cases h1 : s = "" <;>
        by_cases h2 : s ∈ POSITION_TYPES <;>
          simp [Pyboxen.validate_args, defaultArgs, PyVal.truthy, PyVal.isStr, PyVal.asStr,
            h1, h2, left_mem_positions, center_mem_positions, rounded_mem_boxKeys]

/-- Evaluation of the current variant's `validate_args` when only
`subtitle_alignment` differs from the defaults. -/
theorem pyboxen_validate_subtitle_alignment_eval (v : PyVal) :
    Pyboxen.validate_args { defaultArgs with subtitle_alignment := v } =
      (if v.truthy && (!v.isStr || !(POSITION_TYPES.contains v.asStr)) then
        Except.error
          (PyErr.valueError ("subtitle alignment must be one of " ++ pyListRepr POSITION_TYPES))
      else Except.ok ()) := by
  cases v with
  | none => rfl
  | bool b => cases b <;> rfl
  | int n =>
      by_cases h : n = 0 <;>
        simp [Pyboxen.validate_args, defaultArgs, PyVal.truthy, PyVal.isStr, PyVal.asStr, h,
          left_mem_positions, center_mem_positions, rounded_mem_boxKeys]
  | str s =>
      by_cases h1 : s = "" <;>
        by_cases h2 : s ∈ POSITION_TYPES <;>
          simp [Pyboxen.validate_args, defaultArgs, PyVal.truthy, PyVal.isStr, PyVal.asStr,
            h1, h2, left_mem_positions, center_mem_positions, rounded_mem_boxKeys]

/-- Evaluation of the current variant's `validate_args` when only
`fullwidth` differs from the defaults. -/
theorem pyboxen_validate_fullwidth_eval (v : PyVal) :
    Pyboxen.validate_args { defaultArgs with fullwidth := v } =
      (if v.truthy && !v.isBool then
        Except.error (PyErr.typeError "fullwidth must be either True or False")
      else Except.ok ()) := by
  cases v with
  | none => rfl
  | bool b => cases b <;> rfl
  | int n =>
      by_cases h : n = 0 <;>
        simp [Pyboxen.validate_args, defaultArgs, PyVal.truthy, PyVal.isStr, PyVal.isBool,
          PyVal.asStr, h, left_mem_positions, center_mem_positions, rounded_mem_boxKeys]
  | str s =>
      by_cases h1 : s = "" <;>
        simp [Pyboxen.validate_args, defaultArgs, PyVal.truthy, PyVal.isStr, PyVal.isBool,
          PyVal.asStr, h1, left_mem_positions, center_mem_positions, rounded_mem_boxKeys]

/-- C4 counterexample: the empty string is accepted by the current
variant's validation (the check is skipped on falsy values) even though
its lowercase form is not one of the curated style keys, so acceptance
is not exactly key membership over all strings. -/
theorem c4_style_counterexample :
    Pyboxen.validate_args { defaultArgs with style := PyVal.str "" } = Except.ok () ∧
    Pyboxen.boxKeys.contains (pyLower "") = false :=
  ⟨rfl, by decide⟩

/-- C4 amended: for every non-empty string, the current variant's
validation accepts it as `style` exactly when its lowercase form is one
of the ten curated keys, and otherwise raises `ValueError` listing the
valid keys. -/
theorem c4_style_validation (s : String) (hs : s ≠ "") :
    ((Pyboxen.validate_args { defaultArgs with style := PyVal.str s } = Except.ok ()) ↔
      Pyboxen.boxKeys.contains (pyLower s) = true) ∧
    (Pyboxen.boxKeys.contains (pyLower s) = false →
      Pyboxen.validate_args { defaultArgs with style := PyVal.str s } =
        Except.error
          (PyErr.valueError ("style must be one of " ++ pyListRepr Pyboxen.boxKeys))) := by
  rw [pyboxen_validate_style_eval]
  by_cases h2 : pyLower s ∈ Pyboxen.boxKeys <;>
    simp [PyVal.truthy, PyVal.isStr, PyVal.asStr, hs, h2]

/-- C4 witness at the unknown style `"not_a_style"`. -/
theorem c4_style_validation_witness :
    ((Pyboxen.validate_args { defaultArgs with style := PyVal.str "not_a_style" } =
        Except.ok ()) ↔
      Pyboxen.boxKeys.contains (pyLower "not_a_style") = true) ∧
    (Pyboxen.boxKeys.contains (pyLower "not_a_style") = false →
      Pyboxen.validate_args { defaultArgs with style := PyVal.str "not_a_style" } =
        Except.error
          (PyErr.valueError ("style must be one of " ++ pyListRepr Pyboxen.boxKeys))) :=
  c4_style_validation "not_a_style" (by decide)

/-- C5 counterexample: the empty string is accepted by the current
variant's validation as `text_alignment` (the check is skipped on falsy
values) even though it is not one of `left`, `center`, `right`, so
acceptance is not exactly membership in that set over all values. -/
theorem c5_alignment_counterexample :
    Pyboxen.validate_args { defaultArgs with text_alignment := PyVal.str "" } = Except.ok () ∧
    (PyVal.str "" ≠ PyVal.str "left" ∧ PyVal.str "" ≠ PyVal.str "center" ∧
      PyVal.str "" ≠ PyVal.str "right") :=
  ⟨rfl, by decide⟩

/-- C5 amended: for every truthy value, each of the four alignment
fields of the current variant is accepted exactly when the value is one
of the strings `left`, `center`, `right`; every truthy value outside
that set raises `ValueError` naming the offending field and listing the
valid values. -/
theorem c5_alignment_validation (v : PyVal) (hv : v.truthy = true) :
    ((Pyboxen.validate_args { defaultArgs with text_alignment := v } = Except.ok ()) ↔
      (v = PyVal.str "left" ∨ v = PyVal.str "center" ∨ v = PyVal.str "right")) ∧
    (¬(v = PyVal.str "left" ∨ v = PyVal.str "center" ∨ v = PyVal.str "right") →
      Pyboxen.validate_args { defaultArgs with text_alignment := v } =
        Except.error
          (PyErr.valueError ("text alignment must be one of " ++ pyListRepr POSITION_TYPES))) ∧
    ((Pyboxen.validate_args { defaultArgs with box_alignment := v } = Except.ok ()) ↔
      (v = PyVal.str "left" ∨ v = PyVal.str "center" ∨ v = PyVal.str "right")) ∧
    (¬(v = PyVal.str "left" ∨ v = PyVal.str "center" ∨ v = PyVal.str "right") →
      Pyboxen.validate_args { defaultArgs with box_alignment := v } =
        Except.error
          (PyErr.valueError ("box alignment must be one of " ++ pyListRepr POSITION_TYPES))) ∧
    ((Pyboxen.validate_args { defaultArgs with title_alignment := v } = Except.ok ()) ↔
      (v = PyVal.str "left" ∨ v = PyVal.str "center" ∨ v = PyVal.str "right")) ∧
    (¬(v = PyVal.str "left" ∨ v = PyVal.str "center" ∨ v = PyVal.str "right") →
      Pyboxen.validate_args { defaultArgs with title_alignment := v } =
        Except.error
          (PyErr.valueError ("title alignment must be one of " ++ pyListRepr POSITION_TYPES))) ∧
    ((Pyboxen.validate_args { defaultArgs with subtitle_alignment := v } = Except.ok ()) ↔
      (v = PyVal.str "left" ∨ v = PyVal.str "center" ∨ v = PyVal.str "right")) ∧
    (¬(v = PyVal.str "left" ∨ v = PyVal.str "center" ∨ v = PyVal.str "right") →
      Pyboxen.validate_args { defaultArgs with subtitle_alignment := v } =
        Except.error
          (PyErr.valueError ("subtitle alignment must be one of " ++ pyListRepr POSITION_TYPES))) := by
  rw [pyboxen_validate_text_alignment_eval, pyboxen_validate_box_alignment_eval,
    pyboxen_validate_title_alignment_eval, pyboxen_validate_subtitle_alignment_eval]
  cases v with
  | none => simp [PyVal.truthy] at hv
  | bool b =>
      cases b <;> simp_all [PyVal.truthy, PyVal.isStr, PyVal.asStr]
  | int n =>
      simp_all [PyVal.truthy, PyVal.isStr, PyVal.asStr]
  | str s =>
      by_cases h2 : s ∈ POSITION_TYPES <;>
        simp_all [PyVal.truthy, PyVal.isStr, PyVal.asStr, POSITION_TYPES]

/-- C5 witness at the truthy non-member value `"up"`. -/
theorem c5_alignment_validation_witness :
    Pyboxen.validate_args { defaultArgs with text_alignment := PyVal.str "up" } =
      Except.error
        (PyErr.valueError ("text alignment must be one of " ++ pyListRepr POSITION_TYPES)) :=
  (c5_alignment_validation (PyVal.str "up") (by decide)).2.1 (by decide)

/-- C6 counterexample: the falsy non-boolean `0` is accepted as
`fullwidth` by the current variant's validation (the check is skipped
on falsy values), so not every provided non-boolean value raises
`TypeError`. -/
theorem c6_fullwidth_counterexample :
    Pyboxen.validate_args { defaultArgs with fullwidth := PyVal.int 0 } = Except.ok () ∧
    (PyVal.int 0).isBool = false :=
  ⟨rfl, by decide⟩

/-- C6 amended: a truthy non-boolean `fullwidth` value always raises
`TypeError` (in particular the string `"yes"`), while a falsy
non-boolean value is accepted. -/
theorem c6_fullwidth_validation (v : PyVal) (hb : v.isBool = false) :
    (v.truthy = true →
      Pyboxen.validate_args { defaultArgs with fullwidth := v } =
        Except.error (PyErr.typeError "fullwidth must be either True or False")) ∧
    (v.truthy = false →
      Pyboxen.validate_args { defaultArgs with fullwidth := v } = Except.ok ()) := by
  rw [pyboxen_validate_fullwidth_eval]
  constructor <;> intro h <;> simp [h, hb]

/-- C6 witness at `fullwidth = "yes"`. -/
theorem c6_fullwidth_validation_witness :
    Pyboxen.validate_args { defaultArgs with fullwidth := PyVal.str "yes" } =
      Except.error (PyErr.typeError "fullwidth must be either True or False") :=
  (c6_fullwidth_validation (PyVal.str "yes") (by decide)).1 (by decide)

/-- Evaluation of the older variant's `validate_args` when only
`title_alignment` differs from the defaults: the OR-combined check
fires exactly when the value is a truthy non-string or is not a member
of `POSITION_TYPES`. -/
theorem boxen_validate_title_alignment_eval (v : PyVal) :
    Boxen.validate_args { defaultArgs with title_alignment := v } =
      (if (v.truthy && !v.isStr) || pyNotInPositions v then
        Except.error
          (PyErr.valueError ("title alignment must be one of " ++ pyListRepr POSITION_TYPES))
      else Except.ok ()) := by
  cases v with
  | none => rfl
  | bool b => cases b <;> rfl
  | int n =>
      by_cases h : n = 0 <;>
        simp [Boxen.validate_args, defaultArgs, PyVal.truthy, PyVal.isStr, pyNotInPositions,
          h, left_mem_positions, center_mem_positions]
  | str s =>
      by_cases h1 : s = "" <;>
        by_cases h2 : s ∈ POSITION_TYPES <;>
          simp [Boxen.validate_args, defaultArgs, PyVal.truthy, PyVal.isStr, pyNotInPositions,
            h1, h2, left_mem_positions, center_mem_positions]

/-- Evaluation of the older variant's `validate_args` when only
`subtitle_alignment` differs from the defaults. -/
theorem boxen_validate_subtitle_alignment_eval (v : PyVal) :
    Boxen.validate_args { defaultArgs with subtitle_alignment := v } =
      (if (v.truthy && !v.isStr) || pyNotInPositions v then
        Except.error
          (PyErr.valueError ("subtitle alignment must be one of " ++ pyListRepr POSITION_TYPES))
      else Except.ok ()) := by
  cases v with
  | none => rfl
  | bool b => cases b <;> rfl
  | int n =>
      by_cases h : n = 0 <;>
        simp [Boxen.validate_args, defaultArgs, PyVal.truthy, PyVal.isStr, pyNotInPositions,
          h, left_mem_positions, center_mem_positions]
  | str s =>
      by_cases h1 : s = "" <;>
        by_cases h2 : s ∈ POSITION_TYPES <;>
          simp [Boxen.validate_args, defaultArgs, PyVal.truthy, PyVal.isStr, pyNotInPositions,
            h1, h2, left_mem_positions, center_mem_positions]

/-- C7 counterexample: in the older variant, every value of
`{left, center, right}` passes validation as `title_alignment` and as
`subtitle_alignment` (all other arguments at their defaults), so no
valid non-empty alignment value is rejected. -/
theorem c7_counterexample :
    Boxen.validate_args { defaultArgs with title_alignment := PyVal.str "left" } =
      Except.ok () ∧
    Boxen.validate_args { defaultArgs with title_alignment := PyVal.str "center" } =
      Except.ok () ∧
    Boxen.validate_args { defaultArgs with title_alignment := PyVal.str "right" } =
      Except.ok () ∧
    Boxen.validate_args { defaultArgs with subtitle_alignment := PyVal.str "left" } =
      Except.ok () ∧
    Boxen.validate_args { defaultArgs with subtitle_alignment := PyVal.str "center" } =
      Except.ok () ∧
    Boxen.validate_args { defaultArgs with subtitle_alignment := PyVal.str "right" } =
      Except.ok () :=
  ⟨rfl, rfl, rfl, rfl, rfl, rfl⟩

/-- C7 amended: the OR combination does change behavior relative to the
AND-combined checks, but in the opposite direction: every falsy
`title_alignment` or `subtitle_alignment` value (such as `None` or the
empty string) is rejected with the alignment `ValueError` by the older
variant, while the current variant accepts the same value. -/
theorem c7_or_bug_rejects_falsy (v : PyVal) (hv : v.truthy = false) :
    Boxen.validate_args { defaultArgs with title_alignment := v } =
      Except.error
        (PyErr.valueError ("title alignment must be one of " ++ pyListRepr POSITION_TYPES)) ∧
    Boxen.validate_args { defaultArgs with subtitle_alignment := v } =
      Except.error
        (PyErr.valueError ("subtitle alignment must be one of " ++ pyListRepr POSITION_TYPES)) ∧
    Pyboxen.validate_args { defaultArgs with title_alignment := v } = Except.ok () ∧
    Pyboxen.validate_args { defaultArgs with subtitle_alignment := v } = Except.ok () := by
  rw [boxen_validate_title_alignment_eval, boxen_validate_subtitle_alignment_eval,
    pyboxen_validate_title_alignment_eval, pyboxen_validate_subtitle_alignment_eval]
  have hnp : pyNotInPositions v = true := by
    cases v with
    | none => rfl
    | bool b => rfl
    | int n => rfl
    | str s =>
        have hs : s = "" := by
          by_contra hne
          simp [PyVal.truthy, hne] at hv
        subst hs
        decide
  simp [hv, hnp]

/-- C7 witness at the falsy value `None`. -/
theorem c7_or_bug_rejects_falsy_witness :
    Boxen.validate_args { defaultArgs with title_alignment := PyVal.none } =
      Except.error
        (PyErr.valueError ("title alignment must be one of " ++ pyListRepr POSITION_TYPES)) ∧
    Boxen.validate_args { defaultArgs with subtitle_alignment := PyVal.none } =
      Except.error
        (PyErr.valueError ("subtitle alignment must be one of " ++ pyListRepr POSITION_TYPES)) ∧
    Pyboxen.validate_args { defaultArgs with title_alignment := PyVal.none } = Except.ok () ∧
    Pyboxen.validate_args { defaultArgs with subtitle_alignment := PyVal.none } = Except.ok () :=
  c7_or_bug_rejects_falsy PyVal.none (by decide)

/-- C8: `boxen` is deterministic across calls — a successful call
leaves the shared console exactly as it found it, and a second call
with identical arguments on that resulting console returns the
identical output. -/
theorem c8_boxen_deterministic (a : FullArgs) (render : Console → Renderable → String)
    (c : Console) (out : String) (c' : Console)
    (h : Pyboxen.boxen a render c = Except.ok (out, c')) :
    c' = c ∧ Pyboxen.boxen a render c' = Except.ok (out, c') := by
  cases hval : Pyboxen.validate_args a.toBoxenArgs with
  | error e =>
      rw [Pyboxen.boxen, hval] at h
      exact Except.noConfusion h
  | ok u =>
      cases hbb : Pyboxen.build_box a with
      | error e =>
          rw [Pyboxen.boxen, hval, hbb] at h
          exact Except.noConfusion h
      | ok bx =>
          rw [Pyboxen.boxen, hval, hbb] at h
          simp only [Except.ok.injEq, Prod.mk.injEq] at h
          obtain ⟨hout, hc⟩ := h
          subst hc
          subst hout
          refine ⟨rfl, ?_⟩
          rw [Pyboxen.boxen, hval, hbb]

/-- C8 witness: a concrete call with default arguments and a concrete
renderer, run on console state 80, then re-run on the returned state. -/
theorem c8_boxen_deterministic_witness :
    ({ width := 80 } : Console) = { width := 80 } ∧
    Pyboxen.boxen defaultFullArgs (fun _ _ => "RENDERED") { width := 80 } =
      Except.ok ("RENDERED", { width := 80 }) :=
  c8_boxen_deterministic defaultFullArgs (fun _ _ => "RENDERED") { width := 80 }
    "RENDERED" { width := 80 } rfl

theorem dictLookup_eq_none (d : List (String × Box)) (k : String)
    (h : (d.map Prod.fst).contains k = false) : dictLookup d k = none := by
  cases hf : d.find? (fun p => p.1 == k) with
  | none => simp [dictLookup, hf]
  | some p =>
      exfalso
      have hp := List.find?_some hf
      have hpm : p ∈ d := List.mem_of_find?_eq_some hf
      have hk : p.1 = k := by simpa using hp
      have hmem : k ∈ d.map Prod.fst := hk ▸ List.mem_map_of_mem Prod.fst hpm
      have hnot : k ∉ d.map Prod.fst := by simpa using h
      exact hnot hmem

/-- C10: in the older variant the string-typed error branches of
`validate_args` are unreachable — every string `style`,
`text_alignment` and `box_alignment` (known or not) passes validation —
and an unknown style instead surfaces from `boxen` as the key-lookup
failure at `ALL_BOXES[style.lower()]` during box construction. -/
theorem c10_dead_validation_branches (s t u : String)
    (render : Console → Renderable → String) (c : Console) :
    Boxen.validate_args
      { defaultArgs with
        style := PyVal.str s, text_alignment := PyVal.str t, box_alignment := PyVal.str u } =
      Except.ok () ∧
    (Boxen.boxKeys.contains (pyLower s) = false →
      Boxen.boxen { defaultFullArgs with style := PyVal.str s } render c =
        Except.error (PyErr.keyError (pyLower s))) := by
  constructor
  · simp [Boxen.validate_args, defaultArgs, PyVal.truthy, PyVal.isStr, pyNotInPositions,
      left_mem_positions]
  · intro hm
    have hnone : dictLookup Boxen.ALL_BOXES (pyLower s) = none :=
      dictLookup_eq_none _ _ hm
    have hval : Boxen.validate_args
        ({ defaultFullArgs with style := PyVal.str s } : FullArgs).toBoxenArgs =
        Except.ok () := by
      simp [Boxen.validate_args, defaultFullArgs, defaultArgs, PyVal.truthy, PyVal.isStr,
        pyNotInPositions, left_mem_positions]
    have hpanel : Boxen.make_panel { defaultFullArgs with style := PyVal.str s } =
        Except.error (PyErr.keyError (pyLower s)) := by
      simp [Boxen.make_panel, Boxen.style_box, hnone, defaultFullArgs]
    rw [Boxen.boxen, hval, hpanel]

/-- C10 witness at the unknown style `"not_a_style"` with arbitrary
string alignments. -/
theorem c10_dead_validation_branches_witness :
    Boxen.validate_args
      { defaultArgs with
        style := PyVal.str "not_a_style", text_alignment := PyVal.str "up",
        box_alignment := PyVal.str "down" } =
      Except.ok () ∧
    Boxen.boxen { defaultFullArgs with style := PyVal.str "not_a_style" }
        (fun _ _ => "RENDERED") { width := 80 } =
      Except.error (PyErr.keyError (pyLower "not_a_style")) := by
  have h := c10_dead_validation_branches "not_a_style" "up" "down"
    (fun _ _ => "RENDERED") { width := 80 }
  exact ⟨h.1, h.2 (by decide)⟩
